import Mathlib

/-!
Verification of the EdgeDB IR node algebra (`src/edb/lang/ir/ast.py`).

The file shallowly embeds the IR node declarations: a value-level term
algebra `IRNode` mirroring the node classes and their fields, a
constructor `BaseConstant.make` mirroring the only validating
constructor in the source, and a meta-level table (`NodeType`,
`parent`, `ownFields`) transliterating the class hierarchy and the
field declarations themselves.  External collaborators that the source
only references (the scope tree, the cardinality lattice, the generic
AST equality machinery of `edb.lang.common.ast`) are modelled from the
specification and marked as such in their doc comments.
-/

namespace EdbIR

/-- Opaque handle for `PathId` (from `.pathid`, an external collaborator):
the source only requires stable structural identity.  -/
abbrev PathId := String

/-- Opaque handle for schema types (`s_types.Type`): only identity is used. -/
abbrev SType := String

/-- Opaque handle for pointer descriptors (`s_pointers.PointerLike` /
`s_pointers.Pointer`). -/
abbrev PtrCls := String

/-- Opaque handle for schema names (`sn.Name`). -/
abbrev SchemaName := String

/-- Opaque handle for `s_schema.Schema`. -/
abbrev Schema := String

/-- Opaque handle for `ast.ops.Operator`. -/
abbrev Operator := String

/-- Opaque handle for `ft.TypeModifier`. -/
abbrev TypeModifier := String

/-- Opaque handle for `qlast.SetModifier`. -/
abbrev SetModifier := String

/-- Opaque handle for `s_modules.Module`. -/
abbrev ModuleRef := String

/-- Opaque handle for `parsing.ParserContext` (diagnostics only). -/
abbrev ParserContext := String

/-- Pointer traversal direction (`s_pointers.PointerDirection`, external):
the spec names exactly the Inbound/Outbound alternatives. -/
inductive PointerDirection where
  | Inbound
  | Outbound
deriving DecidableEq, BEq

/-- Modelled from the spec: the cardinality enumeration
(`qlast.Cardinality`, external) is a "{ONE, AT_MOST_ONE, MANY,
AT_LEAST_ONE}-style lattice, represented as an enumerated value". -/
inductive Cardinality where
  | ONE
  | AT_MOST_ONE
  | AT_LEAST_ONE
  | MANY
deriving DecidableEq, BEq

/-- Modelled from the spec: the lattice order on cardinalities, by
containment of the multiplicity intervals they denote: `ONE` (exactly
one) is below `AT_MOST_ONE` (0..1) and `AT_LEAST_ONE` (1..n), which are
both below `MANY` (0..n) and mutually incomparable. -/
def cardLE : Cardinality → Cardinality → Bool
  | .ONE, _ => true
  | _, .MANY => true
  | a, b => a == b

/-- Modelled from the spec: the lattice join over the cardinality
enumeration. The source (spec section 9) does not show the join rule; the
spec pins `join ONE MANY = MANY`, `join ONE ONE = ONE` and requires a
least upper bound for the order `cardLE`. -/
def cardJoin : Cardinality → Cardinality → Cardinality
  | .ONE, b => b
  | a, .ONE => a
  | a, b => if a == b then a else .MANY

/-- `j` is the least upper bound of `a` and `b` in the `cardLE` order. -/
def IsCardJoin (a b j : Cardinality) : Prop :=
  cardLE a j = true ∧ cardLE b j = true ∧
    ∀ c, cardLE a c = true → cardLE b c = true → cardLE j c = true

/-- The six concrete constant classes, all subclassing `BaseConstant`
and adding nothing (`StringConstant`, `RawStringConstant`,
`IntegerConstant`, `FloatConstant`, `BooleanConstant`,
`BytesConstant`). -/
inductive ConstKind where
  | stringConst
  | rawStringConst
  | integerConst
  | floatConst
  | booleanConst
  | bytesConst
deriving DecidableEq, BEq

/-- Modelled from the spec: `ScopeTreeNode` lives in the external
`.scopetree` module (not part of the IR declarations).  Per the spec it
is a node in a hierarchy of regions, each flagged fenced or unfenced,
and a `Set.path_scope_id` resolves to a scope-tree node, so each node
carries an identifier. -/
inductive ScopeTreeNode where
  | node (unique_id : Int) (fenced : Bool) (children : List ScopeTreeNode)

/-- The `fenced` flag of a scope-tree node. -/
def ScopeTreeNode.fencedFlag : ScopeTreeNode → Bool
  | .node _ f _ => f

/-- Modelled from the spec: `ScopeTreeNode(fenced=...)` constructs a
fresh root region with the given fencing, no children yet. -/
def ScopeTreeNode.mkRoot (fenced : Bool) : ScopeTreeNode :=
  .node 0 fenced []

/-- `new_scope_tree()` from the source: `return ScopeTreeNode(fenced=True)`. -/
def new_scope_tree : ScopeTreeNode :=
  ScopeTreeNode.mkRoot true

mutual

/-- Whether the scope tree contains a node with the given id. -/
def ScopeTreeNode.containsId : ScopeTreeNode → Int → Bool
  | .node uid _ children, i => uid == i || containsIdList children i

/-- Whether some tree in the list contains a node with the given id. -/
def containsIdList : List ScopeTreeNode → Int → Bool
  | [], _ => false
  | c :: cs, i => c.containsId i || containsIdList cs i

end

/-- The value-level IR term algebra: one constructor per concrete node
class of the source, with one argument per declared field, in source
order.  A field typed with a node class and no default is optional
(the generic constructor leaves it `None` when not supplied), hence
`Option`; fields with a declared default (`named: bool = False`,
`exclusive: bool = False`, `negated: bool = False`,
`has_empty_variadic: bool = False`) are plain `Bool`; `typing.List`
fields default to an empty collection, hence plain `List`.  The
`anchor`/`show_as_anchor` unions `str | ast.MetaAST` are modelled by
their string rendering.  The six constant classes share the fields of
`BaseConstant` and are distinguished by a `ConstKind` tag; constructing
a constant through the validating constructor is `BaseConstant.make`
below. -/
inductive IRNode where
  | pointer (source target : Option IRNode) (ptrcls : Option PtrCls)
      (direction : Option PointerDirection) (anchor show_as_anchor : Option String)
  | typeRef (maintype : Option String) (subtypes : List IRNode)
  | set (path_id : Option PathId) (path_scope_id : Option Int) (stype : Option SType)
      (source view_source expr rptr : Option IRNode)
      (anchor show_as_anchor : Option String) (shape : List IRNode)
  | emptySet (path_id : Option PathId) (path_scope_id : Option Int) (stype : Option SType)
      (source view_source expr rptr : Option IRNode)
      (anchor show_as_anchor : Option String) (shape : List IRNode)
  | constant (kind : ConstKind) (value : Option String) (stype : Option SType)
  | parameter (name : Option String) (stype : Option SType)
  | tupleElement (name : Option String) (val : Option IRNode)
  | tuple (named : Bool) (elements : List IRNode) (stype : Option SType)
  | array (elements : List IRNode)
  | setOp (left right : Option IRNode) (op : Option Operator) (exclusive : Bool)
      (left_card right_card : Option Cardinality)
  | binOp (left right : Option IRNode) (op : Option Operator)
  | unaryOp (expr : Option IRNode) (op : Option Operator)
  | existPred (expr : Option IRNode) (negated : Bool)
  | distinctOp (expr : Option IRNode)
  | equivalenceOp (left right : Option IRNode) (op : Option Operator)
  | typeCheckOp (left right : Option IRNode) (op : Option Operator)
  | ifElseExpr (condition if_expr else_expr : Option IRNode)
      (if_expr_card else_expr_card : Option Cardinality)
  | coalesce (left right : Option IRNode) (right_card : Option Cardinality)
  | sortExpr (expr : Option IRNode) (direction : Option String)
      (nones_order : Option String)
  | functionCall (func_polymorphic : Option Bool) (func_shortname : Option SchemaName)
      (func_sql_function : Option String) (func_initial_value : Option IRNode)
      (args : List IRNode) (params_typemods : List TypeModifier)
      (has_empty_variadic : Bool) (variadic_param_type : Option SType)
      (stype : Option SType) (typemod : Option TypeModifier)
      (agg_sort : List IRNode) (agg_filter : Option IRNode)
      (agg_set_modifier : Option SetModifier)
      (partition : List IRNode) (window : Option Bool)
  | tupleIndirection (expr : Option IRNode) (name : Option String)
      (path_id : Option PathId)
  | indexIndirection (expr index : Option IRNode)
  | sliceIndirection (expr start stop step : Option IRNode)
  | typeCast (expr : Option IRNode) (type : Option IRNode)
  | selectStmt (name : Option String) (result : Option IRNode)
      (cardinality : Option Cardinality) (parent_stmt iterator_stmt : Option IRNode)
      (where_ : Option IRNode) (orderby : List IRNode)
      (offset limit : Option IRNode)
  | groupStmt (name : Option String) (result : Option IRNode)
      (cardinality : Option Cardinality) (parent_stmt iterator_stmt : Option IRNode)
      (subject : Option IRNode) (groupby : List IRNode)
      (group_path_id : Option PathId)
  | insertStmt (name : Option String) (result : Option IRNode)
      (cardinality : Option Cardinality) (parent_stmt iterator_stmt : Option IRNode)
      (subject : Option IRNode)
  | updateStmt (name : Option String) (result : Option IRNode)
      (cardinality : Option Cardinality) (parent_stmt iterator_stmt : Option IRNode)
      (subject : Option IRNode) (where_ : Option IRNode)
  | deleteStmt (name : Option String) (result : Option IRNode)
      (cardinality : Option Cardinality) (parent_stmt iterator_stmt : Option IRNode)
      (subject : Option IRNode) (where_ : Option IRNode)

/-- The `is_inbound` computation of `Pointer` (a `@property` in the
source, derived state, not a stored field): `self.direction ==
s_pointers.PointerDirection.Inbound`.  An unset `direction` (`None`)
compares unequal to `Inbound`. -/
def pointerIsInbound (direction : Option PointerDirection) : Bool :=
  decide (direction = some PointerDirection.Inbound)

/-- `is_inbound` lifted to the term algebra: defined (`some`) exactly on
`Pointer` nodes, where it is computed from the `direction` field. -/
def IRNode.is_inbound : IRNode → Option Bool
  | .pointer _ _ _ dir _ _ => some (pointerIsInbound dir)
  | _ => none

/-- The `expr` field of a `Set` (or `EmptySet`) node. -/
def IRNode.exprField : IRNode → Option IRNode
  | .set _ _ _ _ _ e _ _ _ _ => e
  | .emptySet _ _ _ _ _ e _ _ _ _ => e
  | _ => none

/-- The `rptr` field of a `Set` (or `EmptySet`) node. -/
def IRNode.rptrField : IRNode → Option IRNode
  | .set _ _ _ _ _ _ r _ _ _ => r
  | .emptySet _ _ _ _ _ _ r _ _ _ => r
  | _ => none

/-- The `path_scope_id` field of a `Set` (or `EmptySet`) node. -/
def IRNode.pathScopeId : IRNode → Option Int
  | .set _ psid _ _ _ _ _ _ _ _ => psid
  | .emptySet _ psid _ _ _ _ _ _ _ _ => psid
  | _ => none

/-- Whether a node is a `Set` (including the `EmptySet` subclass). -/
def IRNode.isSetNode : IRNode → Bool
  | .set _ _ _ _ _ _ _ _ _ _ => true
  | .emptySet _ _ _ _ _ _ _ _ _ _ => true
  | _ => false

/-- The `args` field of a `FunctionCall` node. -/
def IRNode.argsField : IRNode → List IRNode
  | .functionCall _ _ _ _ args _ _ _ _ _ _ _ _ _ _ => args
  | _ => []

/-- The `params_typemods` field of a `FunctionCall` node. -/
def IRNode.paramsTypemodsField : IRNode → List TypeModifier
  | .functionCall _ _ _ _ _ tms _ _ _ _ _ _ _ _ _ => tms
  | _ => []

/-- The node-valued children of a node: the contents of every field
declared with a node class type (directly, through `Option`-absence, or
through a `typing.List`), in field order. -/
def IRNode.children : IRNode → List IRNode
  | .pointer src tgt _ _ _ _ => src.toList ++ tgt.toList
  | .typeRef _ subs => subs
  | .set _ _ _ src vsrc e r _ _ sh => src.toList ++ vsrc.toList ++ e.toList ++ r.toList ++ sh
  | .emptySet _ _ _ src vsrc e r _ _ sh =>
      src.toList ++ vsrc.toList ++ e.toList ++ r.toList ++ sh
  | .constant _ _ _ => []
  | .parameter _ _ => []
  | .tupleElement _ v => v.toList
  | .tuple _ els _ => els
  | .array els => els
  | .setOp l r _ _ _ _ => l.toList ++ r.toList
  | .binOp l r _ => l.toList ++ r.toList
  | .unaryOp e _ => e.toList
  | .existPred e _ => e.toList
  | .distinctOp e => e.toList
  | .equivalenceOp l r _ => l.toList ++ r.toList
  | .typeCheckOp l r _ => l.toList ++ r.toList
  | .ifElseExpr c i e _ _ => c.toList ++ i.toList ++ e.toList
  | .coalesce l r _ => l.toList ++ r.toList
  | .sortExpr e _ _ => e.toList
  | .functionCall _ _ _ fiv args _ _ _ _ _ aggSort aggFilter _ part _ =>
      fiv.toList ++ args ++ aggSort ++ aggFilter.toList ++ part
  | .tupleIndirection e _ _ => e.toList
  | .indexIndirection e i => e.toList ++ i.toList
  | .sliceIndirection e s1 s2 s3 => e.toList ++ s1.toList ++ s2.toList ++ s3.toList
  | .typeCast e t => e.toList ++ t.toList
  | .selectStmt _ res _ ps is w ob off lim =>
      res.toList ++ ps.toList ++ is.toList ++ w.toList ++ ob ++ off.toList ++ lim.toList
  | .groupStmt _ res _ ps is subj gb _ =>
      res.toList ++ ps.toList ++ is.toList ++ subj.toList ++ gb
  | .insertStmt _ res _ ps is subj =>
      res.toList ++ ps.toList ++ is.toList ++ subj.toList
  | .updateStmt _ res _ ps is subj w =>
      res.toList ++ ps.toList ++ is.toList ++ subj.toList ++ w.toList
  | .deleteStmt _ res _ ps is subj w =>
      res.toList ++ ps.toList ++ is.toList ++ subj.toList ++ w.toList

/-- Reachability through child links, reflexively: the nodes a
traversal starting from `a` visits. -/
inductive Reaches : IRNode → IRNode → Prop where
  | refl (n : IRNode) : Reaches n n
  | step {a b c : IRNode} : b ∈ a.children → Reaches b c → Reaches a c

/-- `BaseConstant.__init__`: `stype` is a required keyword argument, so
omitting it fails construction (a `TypeError`); after generic field
assignment the constructor raises `ValueError` when `self.stype is None`
(checked first) or `self.value is None`.  An omitted `value` is left
`None` by the generic constructor and hits the same check, so absence
and an explicit `None` are indistinguishable to the constructor; both
are modelled as `none`.  On success the node carries the supplied
`value` and `stype` unchanged. -/
def BaseConstant.make (kind : ConstKind) (value : Option String)
    (stype : Option SType) : Except String IRNode :=
  match stype with
  | none => .error "cannot create irast.Constant without a type"
  | some s =>
    match value with
    | none => .error "cannot create irast.Constant without a value"
    | some v => .ok (.constant kind (some v) (some s))

/-- `Statement`, the compiled-query root (subclass of `Command`): field
per field from the source.  Dicts are modelled as association lists;
`views` maps schema names to view types and `view_shapes` maps schema
objects (the view types) to pointer lists, both opaque handles. -/
structure Statement where
  expr : Option IRNode
  views : List (SchemaName × SType)
  params : List (String × SType)
  cardinality : Option Cardinality
  stype : Option SType
  view_shapes : List (SType × List PtrCls)
  schema : Option Schema
  scope_tree : Option ScopeTreeNode
  scope_map : List (IRNode × String)
  source_map : List (PtrCls × String)

/-- Whether the statement's scope tree has a node with the given id; an
absent tree contains nothing. -/
def Statement.scopeContains (st : Statement) (i : Int) : Bool :=
  match st.scope_tree with
  | none => false
  | some t => t.containsId i

/-- The consistency contract of claim C6, as stated: every
`path_scope_id` carried by a `Set` reachable from `expr` resolves in
`scope_tree`, and every name in `views` has an entry in `view_shapes`
for its view type. -/
def statementConsistent (st : Statement) : Prop :=
  (∀ root s i, st.expr = some root → Reaches root s →
      s.pathScopeId = some i → st.scopeContains i = true) ∧
  (∀ nm t, (nm, t) ∈ st.views → ∃ ptrs, (t, ptrs) ∈ st.view_shapes)

/-- The exclusivity invariant of claim C3, as stated: a `Set` never has
both `expr` and `rptr` non-null (at most one non-null; a root set has
neither). -/
def setExprRptrExclusive (n : IRNode) : Prop :=
  n.exprField = none ∨ n.rptrField = none

/-- The zip-alignment invariant of claim C5, as stated: `args` and
`params_typemods` of a `FunctionCall` have equal length. -/
def funcCallZipAligned (n : IRNode) : Prop :=
  n.argsField.length = n.paramsTypemodsField.length

/-- Modelled from the spec: the consumer of a `SetOp` computes the
combined cardinality of the operation as the lattice join of the stored
`left_card`/`right_card` (the join itself is not in the IR source). -/
def setOpMergedCard : IRNode → Option Cardinality
  | .setOp _ _ _ _ (some lc) (some rc) => some (cardJoin lc rc)
  | _ => none

/-- Modelled from the spec: the generic AST machinery
(`edb.lang.common.ast`, an external collaborator) gives every node a
class tag and a bag of named attributes, and compares/hashes nodes
structurally over those attributes, skipping the names listed in the
class's `__ast_hidden__` set.  The `context` attribute is stored like
any other; only comparison skips it. -/
structure GenericNode where
  tag : String
  attrs : List (String × String)

/-- From the source: `Base.__ast_hidden__ = {'context'}`, inherited by
every IR node class. -/
def astHidden : List String := ["context"]

/-- The attributes that participate in structural comparison: all
attributes whose name is not hidden. -/
def visibleAttrs (n : GenericNode) : List (String × String) :=
  n.attrs.filter (fun kv => !(astHidden.contains kv.1))

/-- Structural equality of nodes: same class tag, same visible
attributes. -/
def structEq (a b : GenericNode) : Prop :=
  a.tag = b.tag ∧ visibleAttrs a = visibleAttrs b

/-- The input from which a node's structural hash is computed: the class
tag and the visible attributes (so equal keys hash equally). -/
def structKey (n : GenericNode) : String × List (String × String) :=
  (n.tag, visibleAttrs n)

/-- Set the `context` attribute of a node, replacing any previous
`context` entry and leaving every other attribute unchanged. -/
def setContext (n : GenericNode) (c : String) : GenericNode :=
  { n with attrs := ("context", c) :: n.attrs.filter (fun kv => kv.1 ≠ "context") }

/-- The class hierarchy of `src/edb/lang/ir/ast.py`, one tag per class
declaration (`_BaseTypeRef` is spelled `BaseTypeRef`). -/
inductive NodeType where
  | Base
  | Pointer
  | BaseTypeRef
  | TypeRef
  | Set
  | Command
  | Statement
  | Expr
  | EmptySet
  | BaseConstant
  | StringConstant
  | RawStringConstant
  | IntegerConstant
  | FloatConstant
  | BooleanConstant
  | BytesConstant
  | Parameter
  | TupleElement
  | Tuple
  | Array
  | SetOp
  | BaseBinOp
  | BinOp
  | UnaryOp
  | ExistPred
  | DistinctOp
  | EquivalenceOp
  | TypeCheckOp
  | IfElseExpr
  | Coalesce
  | SortExpr
  | FunctionCall
  | TupleIndirection
  | IndexIndirection
  | SliceIndirection
  | TypeCast
  | Stmt
  | SelectStmt
  | GroupStmt
  | MutatingStmt
  | InsertStmt
  | UpdateStmt
  | DeleteStmt
  | SessionStateCmd
deriving DecidableEq, BEq

/-- The direct superclass of each class, transliterated from the class
headers (`Base` extends the external `ast.AST`, hence `none`). -/
def parent : NodeType → Option NodeType
  | .Base => none
  | .Pointer => some .Base
  | .BaseTypeRef => some .Base
  | .TypeRef => some .BaseTypeRef
  | .Set => some .Base
  | .Command => some .Base
  | .Statement => some .Command
  | .Expr => some .Base
  | .EmptySet => some .Set
  | .BaseConstant => some .Expr
  | .StringConstant => some .BaseConstant
  | .RawStringConstant => some .BaseConstant
  | .IntegerConstant => some .BaseConstant
  | .FloatConstant => some .BaseConstant
  | .BooleanConstant => some .BaseConstant
  | .BytesConstant => some .BaseConstant
  | .Parameter => some .Base
  | .TupleElement => some .Base
  | .Tuple => some .Expr
  | .Array => some .Expr
  | .SetOp => some .Expr
  | .BaseBinOp => some .Expr
  | .BinOp => some .BaseBinOp
  | .UnaryOp => some .Expr
  | .ExistPred => some .Expr
  | .DistinctOp => some .Expr
  | .EquivalenceOp => some .BaseBinOp
  | .TypeCheckOp => some .Expr
  | .IfElseExpr => some .Expr
  | .Coalesce => some .Base
  | .SortExpr => some .Base
  | .FunctionCall => some .Expr
  | .TupleIndirection => some .Expr
  | .IndexIndirection => some .Expr
  | .SliceIndirection => some .Expr
  | .TypeCast => some .Expr
  | .Stmt => some .Base
  | .SelectStmt => some .Stmt
  | .GroupStmt => some .Stmt
  | .MutatingStmt => some .Stmt
  | .InsertStmt => some .MutatingStmt
  | .UpdateStmt => some .MutatingStmt
  | .DeleteStmt => some .MutatingStmt
  | .SessionStateCmd => some .Command

/-- The chain of strict superclasses of a class, nearest first,
following `parent`; 64 steps of fuel is far above the hierarchy's
depth. -/
def ancestorsFrom : Nat → NodeType → List NodeType
  | 0, _ => []
  | fuel + 1, t =>
    match parent t with
    | none => []
    | some p => p :: ancestorsFrom fuel p

/-- The strict superclasses of a class, nearest first. -/
def ancestors (t : NodeType) : List NodeType :=
  ancestorsFrom 64 t

/-- Reflexive subclass test over the transliterated hierarchy. -/
def isSubclassOf (a b : NodeType) : Bool :=
  a == b || (ancestors a).contains b

/-- The declared type of a field: a node class, a container of such, or
an opaque non-node type named by its source spelling. -/
inductive FieldTy where
  | node (t : NodeType)
  | listOf (e : FieldTy)
  | optionOf (e : FieldTy)
  | unionOf (a b : FieldTy)
  | dictOf (k v : FieldTy)
  | str
  | bool
  | int
  | cardinality
  | foreign (name : String)
deriving DecidableEq, BEq

/-- Whether a field type mentions an IR node class anywhere. -/
def FieldTy.mentionsNode : FieldTy → Bool
  | .node _ => true
  | .listOf e => e.mentionsNode
  | .optionOf e => e.mentionsNode
  | .unionOf a b => a.mentionsNode || b.mentionsNode
  | .dictOf k v => k.mentionsNode || v.mentionsNode
  | _ => false

/-- The fields each class itself declares (not inherited), in source
order, with their declared types. -/
def ownFields : NodeType → List (String × FieldTy)
  | .Base => [("context", .foreign "parsing.ParserContext")]
  | .Pointer =>
      [("source", .node .Base), ("target", .node .Base),
       ("ptrcls", .foreign "s_pointers.PointerLike"),
       ("direction", .foreign "s_pointers.PointerDirection"),
       ("anchor", .unionOf .str (.foreign "ast.MetaAST")),
       ("show_as_anchor", .unionOf .str (.foreign "ast.MetaAST"))]
  | .BaseTypeRef => []
  | .TypeRef => [("maintype", .str), ("subtypes", .listOf (.node .BaseTypeRef))]
  | .Set =>
      [("path_id", .foreign "PathId"), ("path_scope_id", .int),
       ("stype", .foreign "s_types.Type"), ("source", .node .Base),
       ("view_source", .node .Base), ("expr", .node .Base),
       ("rptr", .node .Pointer),
       ("anchor", .unionOf .str (.foreign "ast.MetaAST")),
       ("show_as_anchor", .unionOf .str (.foreign "ast.MetaAST")),
       ("shape", .listOf (.node .Base))]
  | .Command => []
  | .Statement =>
      [("expr", .node .Set),
       ("views", .dictOf (.foreign "sn.Name") (.foreign "s_types.Type")),
       ("params", .dictOf .str (.foreign "s_types.Type")),
       ("cardinality", .cardinality), ("stype", .foreign "s_types.Type"),
       ("view_shapes", .dictOf (.foreign "so.Object")
          (.listOf (.foreign "s_pointers.Pointer"))),
       ("schema", .foreign "s_schema.Schema"),
       ("scope_tree", .foreign "ScopeTreeNode"),
       ("scope_map", .dictOf (.node .Set) .str),
       ("source_map", .dictOf (.foreign "s_pointers.Pointer")
          (.foreign "Tuple[qlast.Expr, compiler.ContextLevel, PathId]"))]
  | .Expr => []
  | .EmptySet => []
  | .BaseConstant => [("value", .str), ("stype", .foreign "s_types.Type")]
  | .StringConstant => []
  | .RawStringConstant => []
  | .IntegerConstant => []
  | .FloatConstant => []
  | .BooleanConstant => []
  | .BytesConstant => []
  | .Parameter => [("name", .str), ("stype", .foreign "s_types.Type")]
  | .TupleElement => [("name", .str), ("val", .node .Base)]
  | .Tuple =>
      [("named", .bool), ("elements", .listOf (.node .TupleElement)),
       ("stype", .foreign "s_types.Type")]
  | .Array => [("elements", .listOf (.node .Base))]
  | .SetOp =>
      [("left", .node .Set), ("right", .node .Set),
       ("op", .foreign "ast.ops.Operator"), ("exclusive", .bool),
       ("left_card", .cardinality), ("right_card", .cardinality)]
  | .BaseBinOp =>
      [("left", .node .Base), ("right", .node .Base),
       ("op", .foreign "ast.ops.Operator")]
  | .BinOp => []
  | .UnaryOp => [("expr", .node .Base), ("op", .foreign "ast.ops.Operator")]
  | .ExistPred => [("expr", .node .Set), ("negated", .bool)]
  | .DistinctOp => [("expr", .node .Base)]
  | .EquivalenceOp => []
  | .TypeCheckOp =>
      [("left", .node .Set), ("right", .unionOf (.node .TypeRef) (.node .Array)),
       ("op", .foreign "ast.ops.Operator")]
  | .IfElseExpr =>
      [("condition", .node .Set), ("if_expr", .node .Set),
       ("else_expr", .node .Set), ("if_expr_card", .cardinality),
       ("else_expr_card", .cardinality)]
  | .Coalesce =>
      [("left", .node .Set), ("right", .node .Set),
       ("right_card", .cardinality)]
  | .SortExpr =>
      [("expr", .node .Base), ("direction", .str),
       ("nones_order", .foreign "qlast.NonesOrder")]
  | .FunctionCall =>
      [("func_polymorphic", .bool), ("func_shortname", .foreign "sn.Name"),
       ("func_sql_function", .optionOf .str),
       ("func_initial_value", .node .Base), ("args", .listOf (.node .Base)),
       ("params_typemods", .listOf (.foreign "ft.TypeModifier")),
       ("has_empty_variadic", .bool),
       ("variadic_param_type", .optionOf (.foreign "s_types.Type")),
       ("stype", .foreign "s_types.Type"),
       ("typemod", .foreign "ft.TypeModifier"),
       ("agg_sort", .listOf (.node .SortExpr)), ("agg_filter", .node .Base),
       ("agg_set_modifier", .foreign "qlast.SetModifier"),
       ("partition", .listOf (.node .Base)), ("window", .bool)]
  | .TupleIndirection =>
      [("expr", .node .Base), ("name", .str), ("path_id", .foreign "PathId")]
  | .IndexIndirection => [("expr", .node .Base), ("index", .node .Base)]
  | .SliceIndirection =>
      [("expr", .node .Base), ("start", .node .Base), ("stop", .node .Base),
       ("step", .node .Base)]
  | .TypeCast => [("expr", .node .Base), ("type", .node .TypeRef)]
  | .Stmt =>
      [("name", .str), ("result", .node .Base), ("cardinality", .cardinality),
       ("parent_stmt", .node .Base), ("iterator_stmt", .node .Base)]
  | .SelectStmt =>
      [("where", .node .Base), ("orderby", .listOf (.node .SortExpr)),
       ("offset", .node .Base), ("limit", .node .Base)]
  | .GroupStmt =>
      [("subject", .node .Base), ("groupby", .listOf (.node .Base)),
       ("result", .node .SelectStmt), ("group_path_id", .foreign "PathId")]
  | .MutatingStmt => [("subject", .node .Set)]
  | .InsertStmt => []
  | .UpdateStmt => [("where", .node .Base)]
  | .DeleteStmt => [("where", .node .Base)]
  | .SessionStateCmd =>
      [("modaliases", .dictOf (.optionOf .str) (.foreign "s_modules.Module")),
       ("testmode", .bool)]

/-- All fields an instance of the class carries: inherited ones
(outermost ancestor first) followed by its own. -/
def allFields (t : NodeType) : List (String × FieldTy) :=
  ((ancestors t).reverse).flatMap ownFields ++ ownFields t

/-- The fields of a class (own and inherited) whose declared type is the
cardinality enumeration. -/
def cardinalityFields (t : NodeType) : List (String × FieldTy) :=
  (allFields t).filter (fun f => f.2 == FieldTy.cardinality)

/-- The `value` field of a constant node. -/
def IRNode.constantValue : IRNode → Option String
  | .constant _ v _ => v
  | _ => none

/-- The `stype` field of a constant node. -/
def IRNode.constantSType : IRNode → Option SType
  | .constant _ _ s => s
  | _ => none

/-- A concrete `Set` carrying both a defining expression and a producing
pointer, as the unvalidated constructor permits. -/
def setWithBoth : IRNode :=
  .set none none none none none
    (some (.constant .integerConst (some "1") (some "std::int64")))
    (some (.pointer none none none (some .Outbound) none none))
    none none []

/-- A concrete `FunctionCall` with one bound argument but no parameter
typemods, as the unvalidated constructor permits. -/
def funcCallMismatched : IRNode :=
  .functionCall none (some "std::len") none none
    [.parameter (some "x") (some "std::str")] []
    false none (some "std::int64") none [] none none [] none

/-- A concrete `Statement` whose root `Set` carries `path_scope_id = 1`
while the scope tree has only node 0, and whose `views` name a view type
absent from `view_shapes`, as the unvalidated constructor permits. -/
def badStatement : Statement where
  expr := some (.set none (some 1) none none none none none none none [])
  views := [("default::v", "default::VType")]
  params := []
  cardinality := none
  stype := none
  view_shapes := []
  schema := none
  scope_tree := some (.node 0 true [])
  scope_map := []
  source_map := []

/-- A trivial `Statement` with no expression and no views, which
satisfies the consistency contract vacuously. -/
def emptyStatement : Statement where
  expr := none
  views := []
  params := []
  cardinality := none
  stype := none
  view_shapes := []
  schema := none
  scope_tree := none
  scope_map := []
  source_map := []

/-- Helper: `cardJoin` is the least upper bound for the `cardLE` order. -/
theorem cardJoin_isLub (a b : Cardinality) : IsCardJoin a b (cardJoin a b) := by
  cases a <;> cases b <;>
    exact ⟨by decide, by decide, fun c => by cases c <;> decide⟩

/-- Claim C1 (confirmed): building any of the six constant kinds with
`stype` or `value` absent yields a construction error, and building with
both supplied succeeds with the `value` and `stype` fields retrievable
unchanged. -/
theorem constant_construction (k : ConstKind) (v s : String) :
    (∀ st, ∃ msg, BaseConstant.make k none st = Except.error msg) ∧
    (∀ val, ∃ msg, BaseConstant.make k val none = Except.error msg) ∧
    BaseConstant.make k (some v) (some s) =
      Except.ok (.constant k (some v) (some s)) ∧
    (BaseConstant.make k (some v) (some s)).map IRNode.constantValue =
      Except.ok (some v) ∧
    (BaseConstant.make k (some v) (some s)).map IRNode.constantSType =
      Except.ok (some s) := by
  refine ⟨fun st => ?_, fun val => ⟨_, rfl⟩, rfl, rfl, rfl⟩
  cases st <;> exact ⟨_, rfl⟩

/-- Claim C2 (confirmed): for every constructed `Pointer`, the derived
`is_inbound` computation yields true exactly when the `direction` field
is `Inbound`; it is a property computed from `direction`, not stored
state. -/
theorem pointer_is_inbound_iff (src tgt : Option IRNode) (pc : Option PtrCls)
    (dir : Option PointerDirection) (a sa : Option String) :
    (IRNode.pointer src tgt pc dir a sa).is_inbound = some true ↔
      dir = some PointerDirection.Inbound := by
  simp [IRNode.is_inbound, pointerIsInbound]

/-- Claim C3 (counterexample): the claimed invariant "at most one of
`expr`/`rptr` is non-null for every constructible `Set`" fails: the
`Set` class performs no construction-time validation, so a `Set` with
both fields non-null is constructible. -/
theorem set_both_expr_rptr_constructible : ¬ setExprRptrExclusive setWithBoth := by
  simp [setExprRptrExclusive, setWithBoth, IRNode.exprField, IRNode.rptrField]

/-- Claim C3 (amended): `Set` stores `expr` and `rptr` as independent
optional fields that round-trip construction unchanged; the at-most-one
rule is a convention on compiler-produced Sets, not enforced by
construction. -/
theorem set_construction_unrestricted (pid : Option PathId) (psid : Option Int)
    (st : Option SType) (src vsrc e r : Option IRNode) (a sa : Option String)
    (sh : List IRNode) :
    (IRNode.set pid psid st src vsrc e r a sa sh).exprField = e ∧
    (IRNode.set pid psid st src vsrc e r a sa sh).rptrField = r ∧
    (IRNode.set pid psid st src vsrc e r a sa sh).isSetNode = true :=
  ⟨rfl, rfl, rfl⟩

/-- Claim C4 (confirmed, join modelled from the spec): the merged
cardinality of a `SetOp` is the lattice join of the stored `left_card`
and `right_card`; the join is the least upper bound for the cardinality
order, `join ONE MANY = MANY`, and `join ONE ONE = ONE`. -/
theorem setop_merged_cardinality (l r : Option IRNode) (op : Option Operator)
    (ex : Bool) (lc rc : Cardinality) :
    setOpMergedCard (IRNode.setOp l r op ex (some lc) (some rc)) =
      some (cardJoin lc rc) ∧
    IsCardJoin lc rc (cardJoin lc rc) ∧
    cardJoin .ONE .MANY = .MANY ∧
    cardJoin .MANY .ONE = .MANY ∧
    cardJoin .ONE .ONE = .ONE :=
  ⟨rfl, cardJoin_isLub lc rc, rfl, rfl, rfl⟩

/-- Witness for C4: a concrete `SetOp` with `left_card = ONE` and
`right_card = MANY` merges to `MANY`. -/
theorem setop_merged_cardinality_witness :
    setOpMergedCard (IRNode.setOp none none none false
      (some Cardinality.ONE) (some Cardinality.MANY)) = some Cardinality.MANY :=
  (setop_merged_cardinality none none none false Cardinality.ONE Cardinality.MANY).1

/-- Claim C5 (counterexample): the claimed invariant
"`len(args) == len(params_typemods)` for every `FunctionCall`" fails:
the class performs no construction-time validation, so a `FunctionCall`
with one argument and no typemods is constructible. -/
theorem funccall_length_mismatch_constructible :
    ¬ funcCallZipAligned funcCallMismatched := by
  simp [funcCallZipAligned, funcCallMismatched, IRNode.argsField,
    IRNode.paramsTypemodsField]

/-- Claim C5 (amended): `FunctionCall` stores `args` and
`params_typemods` as independent lists that round-trip construction
unchanged; their zip-alignment is a documented convention on
compiler-produced nodes, not enforced by construction. -/
theorem funccall_construction_unrestricted (fp : Option Bool)
    (fsn : Option SchemaName) (fsf : Option String) (fiv : Option IRNode)
    (args : List IRNode) (tms : List TypeModifier) (hev : Bool)
    (vpt : Option SType) (st : Option SType) (tm : Option TypeModifier)
    (aggSort : List IRNode) (aggFilter : Option IRNode)
    (asm : Option SetModifier) (part : List IRNode) (w : Option Bool) :
    (IRNode.functionCall fp fsn fsf fiv args tms hev vpt st tm aggSort
      aggFilter asm part w).argsField = args ∧
    (IRNode.functionCall fp fsn fsf fiv args tms hev vpt st tm aggSort
      aggFilter asm part w).paramsTypemodsField = tms :=
  ⟨rfl, rfl⟩

/-- Claim C6 (counterexample): the claimed invariant does not hold of
every `Statement` instance: a `Statement` whose root `Set` carries a
`path_scope_id` absent from `scope_tree` and whose `views` name a type
missing from `view_shapes` is constructible. -/
theorem statement_inconsistent_constructible :
    ¬ statementConsistent badStatement := by
  intro h
  obtain ⟨ptrs, hp⟩ := h.2 "default::v" "default::VType" (by simp [badStatement])
  simp [badStatement] at hp

/-- Claim C6 (amended): the scope-tree/view-shapes consistency of a
`Statement` is an obligation on the producer, not enforced at
construction: Statements satisfying the consistency contract and
Statements violating it are both constructible. -/
theorem statement_consistency_unenforced :
    (∃ st : Statement, ¬ statementConsistent st) ∧
    (∃ st : Statement, statementConsistent st) := by
  constructor
  · refine ⟨badStatement, fun h => ?_⟩
    obtain ⟨ptrs, hp⟩ := h.2 "default::v" "default::VType" (by simp [badStatement])
    simp [badStatement] at hp
  · refine ⟨emptyStatement, fun root s i hexpr _ _ => ?_, fun nm t hmem => ?_⟩
    · simp [emptyStatement] at hexpr
    · simp [emptyStatement] at hmem

/-- Claim C7 (confirmed, equality machinery modelled from the spec): two
nodes that differ only in their `context` attribute — the sole entry of
`Base.__ast_hidden__` — are structurally equal and have equal hash
input, for every class tag and attribute list. -/
theorem context_excluded_from_structural_identity (n : GenericNode)
    (c1 c2 : String) :
    structEq (setContext n c1) (setContext n c2) ∧
    structKey (setContext n c1) = structKey (setContext n c2) := by
  have h : ∀ c, visibleAttrs (setContext n c) =
      (n.attrs.filter (fun kv => kv.1 ≠ "context")).filter
        (fun kv => !(astHidden.contains kv.1)) := by
    intro c
    simp [visibleAttrs, setContext, astHidden]
  refine ⟨⟨rfl, ?_⟩, ?_⟩
  · rw [h c1, h c2]
  · unfold structKey
    rw [h c1, h c2]
    rfl

/-- Claim C8 (counterexample): `Coalesce` is not a variant of the `Expr`
node type — in the source it is declared directly on `Base`, so it is
not a subclass of `Expr`. -/
theorem coalesce_not_expr_variant :
    isSubclassOf NodeType.Coalesce NodeType.Expr = false := by
  decide

/-- Claim C8 (amended): `Coalesce` is a direct variant of `Base` — a
structural sibling of `Expr`, not a member of the `Expr` family — and it
stores exactly one cardinality field, `right_card`, none for the left
side. -/
theorem coalesce_shape :
    parent NodeType.Coalesce = some NodeType.Base ∧
    isSubclassOf NodeType.Coalesce NodeType.Expr = false ∧
    cardinalityFields NodeType.Coalesce =
      [("right_card", FieldTy.cardinality)] := by
  refine ⟨rfl, by decide, by decide⟩

/-- Claim C9 (confirmed): `SessionStateCmd` is a direct variant of
`Command`, a structural sibling of `Statement` (neither subclasses the
other), declares exactly the `modaliases` and `testmode` fields (its
only other carried field is the inherited diagnostics `context`), and no
field of it references an IR node type, hence it contains no expression
tree. -/
theorem sessionstatecmd_shape :
    parent NodeType.SessionStateCmd = some NodeType.Command ∧
    parent NodeType.Statement = some NodeType.Command ∧
    isSubclassOf NodeType.SessionStateCmd NodeType.Statement = false ∧
    isSubclassOf NodeType.Statement NodeType.SessionStateCmd = false ∧
    ownFields NodeType.SessionStateCmd =
      [("modaliases", FieldTy.dictOf (.optionOf .str)
          (.foreign "s_modules.Module")),
       ("testmode", FieldTy.bool)] ∧
    allFields NodeType.SessionStateCmd =
      [("context", FieldTy.foreign "parsing.ParserContext"),
       ("modaliases", FieldTy.dictOf (.optionOf .str)
          (.foreign "s_modules.Module")),
       ("testmode", FieldTy.bool)] ∧
    (allFields NodeType.SessionStateCmd).all
      (fun f => !(f.2.mentionsNode)) = true := by
  refine ⟨rfl, rfl, by decide, by decide, by decide, by decide, by decide⟩

/-- Claim C10 (confirmed): `new_scope_tree()` returns a scope-tree root
constructed with `fenced=True`. -/
theorem new_scope_tree_fenced : new_scope_tree.fencedFlag = true := rfl

end EdbIR
